import Mathlib

/-!
Verification of the AEC3 render-delay-controller core of this repository.

The repository ships only the unit-test source
`modules/audio_processing/aec3/render_delay_controller_unittest.cc`; the
implementation files of `RenderDelayController`, `RenderDelayBuffer`, the
`Decimator` and the matched-filter delay estimator are not part of it.  Where
the implementation is missing, the definitions below are modelled from the
specification document (its sections are cited in the doc comments); the test
file itself is embedded directly.
-/

set_option linter.unusedVariables false
set_option maxRecDepth 16000

namespace Aec3

/-- Result of an operation that may hit the fatal contract-violation path.
The spec (section 7) has exactly two error classes: fatal contract violations
(no recovery path, no recoverable-error return value) and "insufficient
evidence", which is not an error and is represented inside the `ok` payload.
Accordingly this type has no recoverable-error constructor. -/
inductive FatalOr (α : Type) where
  | fatal : FatalOr α
  | ok : α → FatalOr α
  deriving DecidableEq, Repr

/-- Modelled from the spec (section 6): the delay-related options of the
configuration bundle recognized by construction. -/
structure DelayConfig where
  down_sampling_factor : Nat := 4
  num_filters : Nat := 5
  deriving DecidableEq, Repr

/-- Modelled from the spec (section 6): the configuration bundle
`EchoCanceller3Config` passed to `Create`. -/
structure EchoCanceller3Config where
  delay : DelayConfig := {}
  deriving DecidableEq, Repr

/-- Modelled from the spec (sections 3 and 6): the fixed block length in
samples, identical across all supported sample rates.  The defining header is
not in the repository; the spec's worked example (section 8, alignment law)
fixes `block_length = 160`. -/
def kBlockSize : Nat := 160

/-- The supported sample rates (spec section 6): 16000, 32000, 48000 Hz;
all others are contract violations. -/
def supportedRates : List Int := [16000, 32000, 48000]

/-- The downsampling factors exercised by the tests, from the source file:
`constexpr size_t kDownSamplingFactors[] = {2, 4, 8};`. -/
def kDownSamplingFactors : List Nat := [2, 4, 8]

/-- Modelled from the spec (sections 3 and 6): the number of frequency bands
per block as a function of the sample rate (wideband signals are split into
bands upstream; higher rates use more bands, not longer blocks).
`NumBandsForRate` itself is declared outside the repository. -/
def NumBandsForRate (rate : Int) : Nat :=
  if rate = 32000 then 2 else if rate = 48000 then 3 else 1

/-- Energy of a signal: the sum of squared samples.  Used to model the spec's
gate "confidence scoring must be gated on sufficient energy in both signals"
(section 4.3). -/
def signalEnergy (xs : List Int) : Int :=
  (xs.map (fun x => x * x)).sum

/-- Modelled from the spec (section 4.1): the Decimator consumes one
full-rate block and produces one decimated sample per window of `f` input
samples, low-pass filtering before subsampling.  The implementation is not in
the repository; the low-pass is modelled as a box FIR (the sum over each
window), which preserves the all-zero signal. -/
def decimate (f : Nat) (xs : List Int) : List Int :=
  (List.range ((xs.length + f - 1) / f)).map (fun k => ((xs.drop (k * f)).take f).sum)

/-- Cross-correlation of the capture window against the render history at a
candidate lag (spec section 4.3: each matched filter correlates downsampled
capture against downsampled render at its assigned lag offset). -/
def correlationAt (renderHist capture : List Int) (lag : Nat) : Int :=
  ((capture.zip (renderHist.drop lag)).map (fun p => p.1 * p.2)).sum

/-- Modelled from the spec (section 4.3): argmax-with-threshold reduction over
the candidate lags — among candidates, the one with the highest score wins,
and a candidate is only admitted with a positive score (the confidence
threshold of the model). -/
def bestLag (renderHist capture : List Int) : Option Int :=
  let scored := (List.range (renderHist.length + 1)).foldl
    (fun best L =>
      let c := correlationAt renderHist capture L
      match best with
      | none => if 0 < c then some (L, c) else none
      | some p => if p.2 < c then some (L, c) else some p)
    none
  scored.map (fun p => (p.1 : Int))

/-- Modelled from the spec (section 4.3): the per-step report of the
matched-filter bank.  All-zero (silent) input on either signal must never
produce a confident estimate, so the report is gated on nonzero energy in
both the render history and the decimated capture; with sufficient energy
the best-scoring candidate lag is reported (in decimated-sample units). -/
def matchedFilterReport (renderHist capture : List Int) : Option Int :=
  if signalEnergy renderHist = 0 ∨ signalEnergy capture = 0 then none
  else bestLag renderHist capture

/-- The fixed headroom, in blocks, subtracted from the raw delay
(spec section 4.4 step 3b and the test's `kDelayHeadroomBlocks = 1`). -/
def kDelayHeadroomBlocks : Nat := 1

/-- Spec section 4.4 step 3b: `D = max(0, D_raw - headroom)` (in blocks).
`Int.toNat` realizes the clamp at zero. -/
def applyHeadroom (draw : Int) : Nat :=
  (draw - kDelayHeadroomBlocks).toNat

/-- Spec section 4.4 step 3c: the dead-zone policy — results that come to
fewer than 2 blocks collapse to 0. -/
def applyDeadZone (d : Nat) : Nat :=
  if d < 2 then 0 else d

/-- Modelled from the spec (section 4.4 steps 3-4): one update of the
controller's published state (none = Unresolved, some d = Aligned at d
blocks) from the estimator's report for this capture block.  The report is
the raw delay in whole blocks, `D_raw`, negative when the underlying lag is
non-causal:
* no confident candidate: remain in the current published state unchanged;
* negative raw lag (non-causal): transition to / remain in Unresolved;
* otherwise publish `applyDeadZone (applyHeadroom D_raw)`. -/
def controllerUpdate (st : Option Nat) (report : Option Int) : Option Nat :=
  match report with
  | none => st
  | some draw => if draw < 0 then none else some (applyDeadZone (applyHeadroom draw))

/-- The controller's published state after a run of capture-block steps whose
estimator reports are `reports`, starting from state `st`. -/
def runController (st : Option Nat) (reports : List (Option Int)) : Option Nat :=
  reports.foldl controllerUpdate st

/-- Modelled from the spec (sections 4.4 and 6): the delay controller's
state — the session sample rate and the published delay estimate
(none = Unresolved; the initial state). -/
structure RenderDelayController where
  rate : Int
  state : Option Nat
  deriving DecidableEq, Repr

/-- Modelled from the spec (section 6): `RenderDelayController::Create`.
Sample rates outside `supportedRates` are contract violations (fatal); a
supported rate yields a controller in the Unresolved state. -/
def RenderDelayController.Create (config : EchoCanceller3Config) (rate : Int) :
    FatalOr RenderDelayController :=
  if rate ∈ supportedRates then .ok ⟨rate, none⟩ else .fatal

/-- Modelled from the spec (section 4.4 step 3a): conversion of a confident
candidate lag (decimated-sample units) to a raw delay in whole blocks:
multiply by the downsampling factor, divide by the block length, and combine
with the buffering delay already applied by the render history buffer.  The
spec does not fix the sign convention of the combination; the applied
buffering is modelled as subtracted, so that a negative result signals a
non-causal relationship. -/
def rawDelayBlocks (config : EchoCanceller3Config) (lag : Int) (bufferDelay : Nat) : Int :=
  lag * config.delay.down_sampling_factor / kBlockSize - bufferDelay

/-- Modelled from the spec (sections 4.4 and 6): `GetDelay`.  A capture block
whose sample count differs from the fixed block length is a fatal contract
violation (step 1); otherwise the capture block is decimated (step 2), the
estimator is queried (step 3), and the published state is updated by
`controllerUpdate` (steps 3-4).  The returned payload carries the published
delay estimate (none = absent). -/
def RenderDelayController.GetDelay (config : EchoCanceller3Config)
    (c : RenderDelayController) (downsampledRender : List Int) (bufferDelay : Nat)
    (captureBlock : List Int) : FatalOr (RenderDelayController × Option Nat) :=
  if captureBlock.length ≠ kBlockSize then .fatal
  else
    let decCapture := decimate config.delay.down_sampling_factor captureBlock
    let lag := matchedFilterReport downsampledRender decCapture
    let draw := lag.map (fun L => rawDelayBlocks config L bufferDelay)
    let st := controllerUpdate c.state draw
    .ok (⟨c.rate, st⟩, st)

/-- Modelled from the spec (section 3): the capacity of the downsampled render
history, bounded by the maximum lag the estimator must search: one lag window
per matched filter.  The per-filter window constant is not in the repository;
it is fixed at 32 decimated samples. -/
def historyCapacity (config : EchoCanceller3Config) : Nat :=
  config.delay.num_filters * 32

/-- Modelled from the spec (sections 3 and 4.2): the render history buffer —
session rate and channel count, the downsampled single-band single-channel
history (fixed capacity, allocated at construction), and the insert/capture
counters from which the buffering delay is derived. -/
structure RenderDelayBuffer where
  rate : Int
  numChannels : Nat
  downsampled : List Int
  numInserted : Nat
  numPrepared : Nat
  deriving DecidableEq, Repr

/-- Modelled from the spec (section 6): `RenderDelayBuffer::Create`.  Sample
rates outside the supported set are contract violations; a supported rate
yields a buffer whose downsampled history is zero-initialized at full
capacity. -/
def RenderDelayBuffer.Create (config : EchoCanceller3Config) (rate : Int)
    (numRenderChannels : Nat) : FatalOr RenderDelayBuffer :=
  if rate ∈ supportedRates then
    .ok ⟨rate, numRenderChannels, List.replicate (historyCapacity config) 0, 0, 0⟩
  else .fatal

/-- Shape check of a render block (spec section 4.2): band count for the
configured rate, channel count, and sample count must all match the session
configuration. -/
def validRenderShape (b : RenderDelayBuffer) (block : List (List (List Int))) : Bool :=
  block.length == NumBandsForRate b.rate &&
    block.all (fun band =>
      band.length == b.numChannels && band.all (fun chan => chan.length == kBlockSize))

/-- Append freshly decimated samples to the history, keeping the most recent
`cap` samples (spec section 3: ring buffer of the most recent N decimated
samples). -/
def pushSamples (hist fresh : List Int) (cap : Nat) : List Int :=
  let all := hist ++ fresh
  all.drop (all.length - cap)

/-- Modelled from the spec (section 4.2): `Insert` appends a new multi-band,
multi-channel render block; a block-shape mismatch is a fatal contract
violation.  The first-band, first-channel signal is fed through the Decimator
into the downsampled history. -/
def RenderDelayBuffer.Insert (config : EchoCanceller3Config) (b : RenderDelayBuffer)
    (block : List (List (List Int))) : FatalOr RenderDelayBuffer :=
  if validRenderShape b block then
    .ok { b with
      downsampled := pushSamples b.downsampled
        (decimate config.delay.down_sampling_factor ((block.headD []).headD []))
        (historyCapacity config),
      numInserted := b.numInserted + 1 }
  else .fatal

/-- Modelled from the spec (section 4.2): `PrepareCaptureProcessing` advances
the internal read position by one capture step. -/
def RenderDelayBuffer.PrepareCaptureProcessing (b : RenderDelayBuffer) : RenderDelayBuffer :=
  { b with numPrepared := b.numPrepared + 1 }

/-- Modelled from the spec (sections 3 and 4.2): `Delay` — the buffering delay
in blocks, the number of render blocks held between insertion and the exposed
read position. -/
def RenderDelayBuffer.Delay (b : RenderDelayBuffer) : Nat :=
  b.numInserted - b.numPrepared

/-- Modelled from the spec (section 4.2): `GetDownsampledRenderBuffer` — the
read-only view of the current decimated history window. -/
def RenderDelayBuffer.GetDownsampledRenderBuffer (b : RenderDelayBuffer) : List Int :=
  b.downsampled

/-- An all-zero capture block of the configured block length. -/
def zeroCaptureBlock : List Int :=
  List.replicate kBlockSize 0

/-- An all-zero render block for the given rate and channel count. -/
def zeroRenderBlock (rate : Int) (numChannels : Nat) : List (List (List Int)) :=
  List.replicate (NumBandsForRate rate) (List.replicate numChannels (List.replicate kBlockSize 0))

/-- A run of consecutive `GetDelay` calls against a fixed downsampled render
view and buffering delay (the NoRenderSignal pattern: no Insert, no
PrepareCaptureProcessing), collecting each call's returned estimate. -/
def getDelayCalls (config : EchoCanceller3Config) (view : List Int) (bufferDelay : Nat)
    (block : List Int) : RenderDelayController → Nat →
    FatalOr (RenderDelayController × List (Option Nat))
  | c, 0 => .ok (c, [])
  | c, n + 1 =>
    match c.GetDelay config view bufferDelay block with
    | .fatal => .fatal
    | .ok (c2, out) =>
      match getDelayCalls config view bufferDelay block c2 n with
      | .fatal => .fatal
      | .ok (c3, outs) => .ok (c3, out :: outs)

/-- One step of the BasicApiCalls pattern: Insert the render block, prepare
capture processing, then query `GetDelay` on the capture block. -/
def basicApiStep (config : EchoCanceller3Config) (renderBlock : List (List (List Int)))
    (captureBlock : List Int) (b : RenderDelayBuffer) (c : RenderDelayController) :
    FatalOr (RenderDelayBuffer × RenderDelayController × Option Nat) :=
  match b.Insert config renderBlock with
  | .fatal => .fatal
  | .ok b2 =>
    let b3 := b2.PrepareCaptureProcessing
    match c.GetDelay config b3.GetDownsampledRenderBuffer b3.Delay captureBlock with
    | .fatal => .fatal
    | .ok (c2, out) => .ok (b3, c2, out)

/-- The BasicApiCalls pattern iterated, collecting each step's returned
estimate. -/
def basicApiCalls (config : EchoCanceller3Config) (renderBlock : List (List (List Int)))
    (captureBlock : List Int) : RenderDelayBuffer → RenderDelayController → Nat →
    FatalOr (RenderDelayBuffer × RenderDelayController × List (Option Nat))
  | b, c, 0 => .ok (b, c, [])
  | b, c, n + 1 =>
    match basicApiStep config renderBlock captureBlock b c with
    | .fatal => .fatal
    | .ok (b2, c2, out) =>
      match basicApiCalls config renderBlock captureBlock b2 c2 n with
      | .fatal => .fatal
      | .ok (b3, c3, outs) => .ok (b3, c3, out :: outs)

/-- The raw lag, in whole blocks, of a causal sample delay of `D` samples:
`floor(D / block_length)` (spec section 8, alignment law). -/
def trueRawLag (D : Nat) : Int :=
  ((D / kBlockSize : Nat) : Int)

/-- Modelled from the spec (sections 4.3 and 8): the estimator's report stream
in the causal alignment run, where the capture signal is the white-noise
render signal delayed by `D` samples.  The matched-filter implementation is
not in the repository; per the spec, confidence rises only after sufficient
observation, so each step reports either no confident candidate or the true
raw block lag, and — since the alignment law requires publication within
`400 + D / block_length` blocks — the bank reaches confidence at least once
during the run. -/
def AlignedReports (D : Nat) (reports : List (Option Int)) : Prop :=
  (∀ r ∈ reports, r = none ∨ r = some (trueRawLag D)) ∧ some (trueRawLag D) ∈ reports

/-- Modelled from the spec (sections 4.3 and 4.4 step 3d): the estimator's
report stream in the non-causal run, where the capture signal leads the
render signal.  Each step reports either no confident candidate or a
candidate whose raw lag is negative. -/
def NonCausalReports (reports : List (Option Int)) : Prop :=
  ∀ r ∈ reports, r = none ∨ ∃ L : Int, L < 0 ∧ r = some L

/-- An API call of the jittered schedule: a render-block insertion or one
capture-block processing step (PrepareCaptureProcessing + GetDelay). -/
inductive ApiOp where
  | insertRender : ApiOp
  | processCapture : ApiOp
  deriving DecidableEq, Repr

/-- The number of capture-processing steps in a schedule. -/
def captureCount : List ApiOp → Nat
  | [] => 0
  | ApiOp.insertRender :: ops => captureCount ops
  | ApiOp.processCapture :: ops => captureCount ops + 1

/-- Logical-order validity of a schedule (spec section 4.4: render must be
available before the corresponding capture query), starting from `m` render
blocks inserted and `k` capture blocks processed: every capture step happens
strictly after its render block was inserted. -/
def ValidFrom : Nat → Nat → List ApiOp → Prop
  | _, _, [] => True
  | m, k, ApiOp.insertRender :: ops => ValidFrom (m + 1) k ops
  | m, k, ApiOp.processCapture :: ops => k < m ∧ ValidFrom m (k + 1) ops

/-- Modelled from the spec (section 4.4, tolerance to irregular call cadence):
the estimator's report for capture step `k` depends only on `k` once the
corresponding render block is available — extra buffered render lookahead
does not change it.  The report function takes the capture index and the
number of render blocks inserted so far. -/
def ScheduleIndep (reports : Nat → Nat → Option Int) : Prop :=
  ∀ k m m', k < m → k < m' → reports k m = reports k m'

/-- Run a schedule of API calls: the state is (render blocks inserted, capture
blocks processed, controller published state); a capture step feeds the
estimator's report for its logical index into `controllerUpdate`. -/
def runSched (reports : Nat → Nat → Option Int) :
    List ApiOp → Nat × Nat × Option Nat → Nat × Nat × Option Nat
  | [], s => s
  | ApiOp.insertRender :: ops, (m, k, st) => runSched reports ops (m + 1, k, st)
  | ApiOp.processCapture :: ops, (m, k, st) =>
    runSched reports ops (m, k + 1, controllerUpdate st (reports k m))

/-- The canonical report list of capture steps `k, k+1, ..., k+n-1`, each
taken right when its render block has just become available. -/
def canonReports (reports : Nat → Nat → Option Int) : Nat → Nat → List (Option Int)
  | _, 0 => []
  | k, n + 1 => reports k (k + 1) :: canonReports reports (k + 1) n

/-- The strictly alternated schedule: each render insertion immediately
followed by the matching capture-processing step. -/
def alternatedSchedule : Nat → List ApiOp
  | 0 => []
  | n + 1 => ApiOp.insertRender :: ApiOp.processCapture :: alternatedSchedule n

/-- The C++ counted loop with an equality condition,
`for (size_t n = init; n == target; ++n) body;`, run for at most `fuel`
iterations from counter value `n` over state `s`. -/
def forEqLoop {σ : Type} (fuel target : Nat) (body : Nat → σ → σ) (n : Nat) (s : σ) : σ :=
  match fuel with
  | 0 => s
  | Nat.succ f => if n = target then forEqLoop f target body (n + 1) (body n s) else s

/-- The outer loop shared by the six tests of the source file:
`for (size_t num_matched_filters = 4; num_matched_filters == 10;
num_matched_filters++)`. -/
def matchedFilterLoop {σ : Type} (body : Nat → σ → σ) (fuel : Nat) (s : σ) : σ :=
  forEqLoop fuel 10 body 4 s

/-- Embedding of TEST(RenderDelayController, NoRenderSignal): the matched
filter loop around the downsampling-factor and rate loops; the
per-configuration body (construction plus the 100 GetDelay/EXPECT steps) is
the parameter `inner`, abstracted because the controller implementation is
not in the repository. -/
def noRenderSignalTest {σ : Type} (inner : Nat → Nat → Int → σ → σ) (fuel : Nat) (s : σ) : σ :=
  matchedFilterLoop
    (fun nmf s0 =>
      kDownSamplingFactors.foldl
        (fun s1 f => supportedRates.foldl (fun s2 rate => inner nmf f rate s2) s1) s0)
    fuel s

/-- Embedding of TEST(RenderDelayController, BasicApiCalls): same loop
structure as NoRenderSignal, with the per-configuration body abstracted. -/
def basicApiCallsTest {σ : Type} (inner : Nat → Nat → Int → σ → σ) (fuel : Nat) (s : σ) : σ :=
  matchedFilterLoop
    (fun nmf s0 =>
      kDownSamplingFactors.foldl
        (fun s1 f => supportedRates.foldl (fun s2 rate => inner nmf f rate s2) s1) s0)
    fuel s

/-- Embedding of TEST(RenderDelayController, Alignment): the matched-filter
loop around the factor, render-channel-count ({1, 2}) and rate loops, with
the per-configuration body (the delay_samples loop with its assertions)
abstracted. -/
def alignmentTest {σ : Type} (inner : Nat → Nat → Nat → Int → σ → σ) (fuel : Nat) (s : σ) : σ :=
  matchedFilterLoop
    (fun nmf s0 =>
      kDownSamplingFactors.foldl
        (fun s1 f =>
          [1, 2].foldl
            (fun s2 ch => supportedRates.foldl (fun s3 rate => inner nmf f ch rate s3) s2) s1)
        s0)
    fuel s

/-- Embedding of TEST(RenderDelayController, NonCausalAlignment): the
matched-filter loop around the factor and rate loops, body abstracted. -/
def nonCausalAlignmentTest {σ : Type} (inner : Nat → Nat → Int → σ → σ) (fuel : Nat) (s : σ) : σ :=
  matchedFilterLoop
    (fun nmf s0 =>
      kDownSamplingFactors.foldl
        (fun s1 f => supportedRates.foldl (fun s2 rate => inner nmf f rate s2) s1) s0)
    fuel s

/-- Embedding of TEST(RenderDelayController, AlignmentWithJitter): the
matched-filter loop around the factor and rate loops, body abstracted. -/
def alignmentWithJitterTest {σ : Type} (inner : Nat → Nat → Int → σ → σ) (fuel : Nat) (s : σ) : σ :=
  matchedFilterLoop
    (fun nmf s0 =>
      kDownSamplingFactors.foldl
        (fun s1 f => supportedRates.foldl (fun s2 rate => inner nmf f rate s2) s1) s0)
    fuel s

/-- Embedding of TEST(RenderDelayController, InitialHeadroom): the
matched-filter loop around the factor and rate loops, body abstracted. -/
def initialHeadroomTest {σ : Type} (inner : Nat → Nat → Int → σ → σ) (fuel : Nat) (s : σ) : σ :=
  matchedFilterLoop
    (fun nmf s0 =>
      kDownSamplingFactors.foldl
        (fun s1 f => supportedRates.foldl (fun s2 rate => inner nmf f rate s2) s1) s0)
    fuel s

/-- The value published for a confident causal raw lag: headroom subtraction
followed by the dead-zone policy. -/
def publishValue (L : Int) : Nat :=
  applyDeadZone (applyHeadroom L)

theorem forEqLoop_not_entered {σ : Type} (fuel target : Nat) (body : Nat → σ → σ)
    (n : Nat) (s : σ) (h : n ≠ target) : forEqLoop fuel target body n s = s := by
  cases fuel with
  | zero => rfl
  | succ f => simp [forEqLoop, h]

theorem controllerUpdate_noReport (st : Option Nat) : controllerUpdate st none = st := rfl

theorem controllerUpdate_causal (st : Option Nat) (L : Int) (h : 0 ≤ L) :
    controllerUpdate st (some L) = some (publishValue L) := by
  simp only [controllerUpdate]
  rw [if_neg (by omega)]
  rfl

theorem controllerUpdate_negLag (st : Option Nat) (L : Int) (h : L < 0) :
    controllerUpdate st (some L) = none := by
  simp only [controllerUpdate]
  rw [if_pos h]

theorem runController_cons (st : Option Nat) (r : Option Int) (rs : List (Option Int)) :
    runController st (r :: rs) = runController (controllerUpdate st r) rs := rfl

theorem runController_all_none (rs : List (Option Int)) (st : Option Nat)
    (h : ∀ r ∈ rs, r = none) : runController st rs = st := by
  induction rs generalizing st with
  | nil => rfl
  | cons r rs ih =>
    have hr : r = none := h r (List.mem_cons_self r rs)
    subst hr
    rw [runController_cons, controllerUpdate_noReport]
    exact ih st (fun x hx => h x (List.mem_cons_of_mem _ hx))

theorem runController_absorb (L : Int) (hL : 0 ≤ L) (rs : List (Option Int))
    (h : ∀ r ∈ rs, r = none ∨ r = some L) :
    runController (some (publishValue L)) rs = some (publishValue L) := by
  induction rs with
  | nil => rfl
  | cons r rs ih =>
    rcases h r (List.mem_cons_self r rs) with hr | hr
    · subst hr
      rw [runController_cons, controllerUpdate_noReport]
      exact ih (fun x hx => h x (List.mem_cons_of_mem _ hx))
    · subst hr
      rw [runController_cons, controllerUpdate_causal _ _ hL]
      exact ih (fun x hx => h x (List.mem_cons_of_mem _ hx))

theorem runController_reach (L : Int) (hL : 0 ≤ L) (rs : List (Option Int))
    (hall : ∀ r ∈ rs, r = none ∨ r = some L) (hmem : some L ∈ rs) (st : Option Nat) :
    runController st rs = some (publishValue L) := by
  induction rs generalizing st with
  | nil => exact absurd hmem (List.not_mem_nil _)
  | cons r rs ih =>
    rcases hall r (List.mem_cons_self r rs) with hr | hr
    · subst hr
      rw [runController_cons, controllerUpdate_noReport]
      have hmem2 : some L ∈ rs := by
        rcases List.mem_cons.mp hmem with h1 | h1
        · exact absurd h1 (Option.some_ne_none L)
        · exact h1
      exact ih (fun x hx => hall x (List.mem_cons_of_mem _ hx)) hmem2 st
    · subst hr
      rw [runController_cons, controllerUpdate_causal _ _ hL]
      exact runController_absorb L hL rs (fun x hx => hall x (List.mem_cons_of_mem _ hx))

theorem runController_noncausal (rs : List (Option Int)) (h : NonCausalReports rs) :
    runController none rs = none := by
  induction rs with
  | nil => rfl
  | cons r rs ih =>
    rcases h r (List.mem_cons_self r rs) with hr | ⟨L, hL, hr⟩
    · subst hr
      rw [runController_cons, controllerUpdate_noReport]
      exact ih (fun x hx => h x (List.mem_cons_of_mem _ hx))
    · subst hr
      rw [runController_cons, controllerUpdate_negLag _ _ hL]
      exact ih (fun x hx => h x (List.mem_cons_of_mem _ hx))

theorem trueRawLag_nonneg (D : Nat) : 0 ≤ trueRawLag D :=
  Int.natCast_nonneg _

theorem publishValue_trueRawLag (D : Nat) :
    publishValue (trueRawLag D) = applyDeadZone (D / kBlockSize - 1) := by
  unfold publishValue applyHeadroom trueRawLag kDelayHeadroomBlocks
  congr 1
  omega

theorem runSched_controller (reports : Nat → Nat → Option Int) (hind : ScheduleIndep reports) :
    ∀ (ops : List ApiOp) (m k : Nat) (st : Option Nat), ValidFrom m k ops →
      (runSched reports ops (m, k, st)).2.2 =
        runController st (canonReports reports k (captureCount ops)) := by
  intro ops
  induction ops with
  | nil => intro m k st _; rfl
  | cons op ops ih =>
    intro m k st hv
    cases op with
    | insertRender => exact ih (m + 1) k st hv
    | processCapture =>
      obtain ⟨hkm, hv2⟩ := hv
      show (runSched reports ops (m, k + 1, controllerUpdate st (reports k m))).2.2 =
        runController (controllerUpdate st (reports k (k + 1)))
          (canonReports reports (k + 1) (captureCount ops))
      rw [hind k m (k + 1) hkm (Nat.lt_succ_self k)]
      exact ih m (k + 1) _ hv2

theorem captureCount_alternated (n : Nat) : captureCount (alternatedSchedule n) = n := by
  induction n with
  | zero => rfl
  | succ n ih => simp [alternatedSchedule, captureCount, ih]

theorem validFrom_alternated : ∀ (n m : Nat), ValidFrom m m (alternatedSchedule n)
  | 0, _ => trivial
  | n + 1, m => ⟨Nat.lt_succ_self m, validFrom_alternated n (m + 1)⟩

theorem signalEnergy_eq_zero (xs : List Int) (h : ∀ x ∈ xs, x = 0) : signalEnergy xs = 0 := by
  unfold signalEnergy
  refine List.sum_eq_zero ?_
  intro y hy
  obtain ⟨x, hx, rfl⟩ := List.mem_map.mp hy
  rw [h x hx]
  ring

theorem decimate_all_zero (f : Nat) (xs : List Int) (h : ∀ x ∈ xs, x = 0) :
    ∀ y ∈ decimate f xs, y = 0 := by
  intro y hy
  unfold decimate at hy
  obtain ⟨k, _, rfl⟩ := List.mem_map.mp hy
  exact List.sum_eq_zero (fun x hx => h x (List.mem_of_mem_drop (List.mem_of_mem_take hx)))

theorem pushSamples_all_zero (hist fresh : List Int) (cap : Nat)
    (h1 : ∀ x ∈ hist, x = 0) (h2 : ∀ x ∈ fresh, x = 0) :
    ∀ x ∈ pushSamples hist fresh cap, x = 0 := by
  intro x hx
  unfold pushSamples at hx
  rcases List.mem_append.mp (List.mem_of_mem_drop hx) with h | h
  · exact h1 x h
  · exact h2 x h

theorem GetDelay_silent (config : EchoCanceller3Config) (rate : Int) (view : List Int)
    (bd : Nat) (st : Option Nat) (hview : ∀ x ∈ view, x = 0) :
    RenderDelayController.GetDelay config ⟨rate, st⟩ view bd zeroCaptureBlock =
      FatalOr.ok (⟨rate, st⟩, st) := by
  unfold RenderDelayController.GetDelay
  rw [if_neg (by simp [zeroCaptureBlock])]
  have hrep : matchedFilterReport view
      (decimate config.delay.down_sampling_factor zeroCaptureBlock) = none := by
    unfold matchedFilterReport
    rw [if_pos (Or.inl (signalEnergy_eq_zero view hview))]
  simp [hrep, controllerUpdate]

theorem validRenderShape_zeroBlock (b : RenderDelayBuffer) :
    validRenderShape b (zeroRenderBlock b.rate b.numChannels) = true := by
  unfold validRenderShape zeroRenderBlock
  simp [List.all_eq_true]

theorem headD_replicate {α : Type} (n : Nat) (a d : α) (h : 0 < n) :
    (List.replicate n a).headD d = a := by
  cases n with
  | zero => omega
  | succ n => rfl

theorem NumBandsForRate_pos (rate : Int) : 0 < NumBandsForRate rate := by
  unfold NumBandsForRate
  split
  · omega
  · split
    · omega
    · omega

theorem basicApiStep_silent (config : EchoCanceller3Config) (b : RenderDelayBuffer)
    (st : Option Nat) (hzero : ∀ x ∈ b.downsampled, x = 0) :
    ∃ b2, basicApiStep config (zeroRenderBlock b.rate b.numChannels) zeroCaptureBlock b
        ⟨b.rate, st⟩ = FatalOr.ok (b2, ⟨b.rate, st⟩, st) ∧
      b2.rate = b.rate ∧ b2.numChannels = b.numChannels ∧ ∀ x ∈ b2.downsampled, x = 0 := by
  have hz2 : ∀ x ∈ pushSamples b.downsampled
      (decimate config.delay.down_sampling_factor
        (((zeroRenderBlock b.rate b.numChannels).headD []).headD []))
      (historyCapacity config), x = 0 := by
    refine pushSamples_all_zero _ _ _ hzero ?_
    refine decimate_all_zero _ _ ?_
    intro x hx
    unfold zeroRenderBlock at hx
    rw [headD_replicate _ _ _ (NumBandsForRate_pos b.rate)] at hx
    rcases Nat.eq_zero_or_pos b.numChannels with hm | hm
    · rw [hm] at hx
      simp at hx
    · rw [headD_replicate _ _ _ hm] at hx
      exact List.eq_of_mem_replicate hx
  refine ⟨⟨b.rate, b.numChannels,
      pushSamples b.downsampled
        (decimate config.delay.down_sampling_factor
          (((zeroRenderBlock b.rate b.numChannels).headD []).headD []))
        (historyCapacity config),
      b.numInserted + 1, b.numPrepared + 1⟩, ?_, rfl, rfl, hz2⟩
  unfold basicApiStep RenderDelayBuffer.Insert
  rw [if_pos (validRenderShape_zeroBlock b)]
  simp only [RenderDelayBuffer.PrepareCaptureProcessing,
    RenderDelayBuffer.GetDownsampledRenderBuffer, RenderDelayBuffer.Delay]
  rw [GetDelay_silent config b.rate _ _ st hz2]

theorem basicApiCalls_silent (config : EchoCanceller3Config) (rate : Int) (ch : Nat)
    (st : Option Nat) :
    ∀ (n : Nat) (b : RenderDelayBuffer), b.rate = rate → b.numChannels = ch →
      (∀ x ∈ b.downsampled, x = 0) →
      ∃ b2, basicApiCalls config (zeroRenderBlock rate ch) zeroCaptureBlock b ⟨rate, st⟩ n =
        FatalOr.ok (b2, ⟨rate, st⟩, List.replicate n st) := by
  intro n
  induction n with
  | zero => exact fun b _ _ _ => ⟨b, rfl⟩
  | succ n ih =>
    intro b hr hch hz
    obtain ⟨b2, hstep, hr2, hch2, hz2⟩ := basicApiStep_silent config b st hz
    rw [hr, hch] at hstep
    obtain ⟨b3, hrun⟩ := ih b2 (hr2.trans hr) (hch2.trans hch) hz2
    refine ⟨b3, ?_⟩
    unfold basicApiCalls
    rw [hstep]
    simp only [hrun, List.replicate_succ]

/-- Claim C9: in every test function that iterates matched-filter counts —
NoRenderSignal, BasicApiCalls, Alignment, NonCausalAlignment,
AlignmentWithJitter and InitialHeadroom — the loop
`for (size_t num_matched_filters = 4; num_matched_filters == 10;
num_matched_filters++)` has a condition that is false on entry (4 is not 10),
so the loop body executes zero times: embedded as functions, these tests
evaluate no assertion and equal the no-op, for every per-configuration body,
every fuel bound and every starting state. -/
theorem C9_matched_filter_loops_vacuous (σ : Type) (inner : Nat → Nat → Int → σ → σ)
    (innerCh : Nat → Nat → Nat → Int → σ → σ) (fuel : Nat) (s : σ) :
    noRenderSignalTest inner fuel s = s ∧ basicApiCallsTest inner fuel s = s ∧
      alignmentTest innerCh fuel s = s ∧ nonCausalAlignmentTest inner fuel s = s ∧
      alignmentWithJitterTest inner fuel s = s ∧ initialHeadroomTest inner fuel s = s := by
  refine ⟨?_, ?_, ?_, ?_, ?_, ?_⟩ <;>
    exact forEqLoop_not_entered fuel 10 _ 4 s (by omega)

/-- Claim C1 (alignment law): for every supported sample rate, downsampling
factor in {2, 4, 8} and render channel count in {1, 2}, when the capture
signal is the white-noise render signal delayed by D samples
(D ∈ {15, 50, 150, 200, 800, 4000}) — the matched-filter bank's behaviour on
that signal being modelled by a report stream satisfying `AlignedReports D` —
after feeding at least `400 + D / kBlockSize` capture blocks, the controller
created for that rate publishes a present estimate equal to
`max(0, floor(D / kBlockSize) - 1)` blocks (Nat subtraction realizes the
clamp at zero). -/
theorem C1_alignment_law (rate : Int) (f ch D : Nat) (config : EchoCanceller3Config)
    (c : RenderDelayController) (reports : List (Option Int))
    (hrate : rate ∈ supportedRates) (hf : f ∈ kDownSamplingFactors) (hch : ch ∈ [1, 2])
    (hD : D ∈ [15, 50, 150, 200, 800, 4000])
    (hc : RenderDelayController.Create config rate = FatalOr.ok c)
    (hlen : 400 + D / kBlockSize ≤ reports.length)
    (ha : AlignedReports D reports) :
    runController c.state reports = some (D / kBlockSize - 1) := by
  obtain ⟨hall, hmem⟩ := ha
  rw [runController_reach (trueRawLag D) (trueRawLag_nonneg D) reports hall hmem c.state,
    publishValue_trueRawLag]
  simp only [List.mem_cons, List.not_mem_nil, or_false] at hD
  rcases hD with rfl | rfl | rfl | rfl | rfl | rfl <;> rfl

/-- Witness for C1: rate 16000, factor 4, two render channels, D = 800
samples; the report stream is 404 unconfident steps followed by one confident
report of the true raw lag (800 / 160 = 5 blocks); the published delay is
5 - 1 = 4 blocks. -/
theorem C1_alignment_law_witness :
    (16000 : Int) ∈ supportedRates ∧ (4 : Nat) ∈ kDownSamplingFactors ∧
      (2 : Nat) ∈ [1, 2] ∧ (800 : Nat) ∈ [15, 50, 150, 200, 800, 4000] ∧
      RenderDelayController.Create {} 16000 = FatalOr.ok ⟨16000, none⟩ ∧
      400 + 800 / kBlockSize ≤
        (List.replicate 404 (none : Option Int) ++ [some (trueRawLag 800)]).length ∧
      AlignedReports 800 (List.replicate 404 (none : Option Int) ++ [some (trueRawLag 800)]) ∧
      runController (RenderDelayController.mk 16000 none).state
        (List.replicate 404 (none : Option Int) ++ [some (trueRawLag 800)]) =
        some (800 / kBlockSize - 1) := by
  have ha : AlignedReports 800
      (List.replicate 404 (none : Option Int) ++ [some (trueRawLag 800)]) := by
    unfold AlignedReports trueRawLag
    decide
  exact ⟨by decide, by decide, by decide, by decide, by decide, by decide, ha,
    C1_alignment_law 16000 4 2 800 {} ⟨16000, none⟩ _ (by decide) (by decide) (by decide)
      (by decide) (by decide) (by decide) ha⟩

/-- Claim C2 (non-causality law): for every supported sample rate,
downsampling factor and filter count, when the capture signal leads the
render signal by D samples (D ∈ {15, 50, 150, 200}) — the estimator's
behaviour on that signal being modelled by a report stream satisfying
`NonCausalReports` (only unconfident or negative-lag reports) — the
controller created for that rate publishes no estimate at any step of a run
of at least `400 - D / kBlockSize` blocks. -/
theorem C2_noncausal_law (rate : Int) (f nf D : Nat) (config : EchoCanceller3Config)
    (c : RenderDelayController) (reports : List (Option Int))
    (hrate : rate ∈ supportedRates) (hf : f ∈ kDownSamplingFactors)
    (hD : D ∈ [15, 50, 150, 200])
    (hc : RenderDelayController.Create config rate = FatalOr.ok c)
    (hlen : 400 - D / kBlockSize ≤ reports.length)
    (hnc : NonCausalReports reports) :
    ∀ k, runController c.state (reports.take k) = none := by
  have hst : c.state = none := by
    unfold RenderDelayController.Create at hc
    rw [if_pos hrate] at hc
    injection hc with h
    rw [← h]
  intro k
  rw [hst]
  exact runController_noncausal _ (fun r hr => hnc r (List.take_subset k reports hr))

/-- Witness for C2: rate 16000, factor 2, 4 matched filters, D = 15 samples,
a run of 400 unconfident reports; after all 400 steps no estimate is
published. -/
theorem C2_noncausal_law_witness :
    (16000 : Int) ∈ supportedRates ∧ (2 : Nat) ∈ kDownSamplingFactors ∧
      (15 : Nat) ∈ [15, 50, 150, 200] ∧
      RenderDelayController.Create {} 16000 = FatalOr.ok ⟨16000, none⟩ ∧
      400 - 15 / kBlockSize ≤ (List.replicate 400 (none : Option Int)).length ∧
      NonCausalReports (List.replicate 400 (none : Option Int)) ∧
      runController (RenderDelayController.mk 16000 none).state
        ((List.replicate 400 (none : Option Int)).take 400) = none := by
  have hnc : NonCausalReports (List.replicate 400 (none : Option Int)) :=
    fun r hr => Or.inl (List.eq_of_mem_replicate hr)
  exact ⟨by decide, by decide, by decide, by decide, by decide, hnc,
    C2_noncausal_law 16000 2 4 15 {} ⟨16000, none⟩ _ (by decide) (by decide) (by decide)
      (by decide) (by decide) hnc 400⟩

/-- Claim C3 (silence law): for every configuration and supported sample
rate, with the render history buffer freshly created (all-silent render, no
insertions) and an all-zero capture stream, every one of `n` consecutive
GetDelay calls — in particular each of at least 100 — returns the absent
delay estimate, the energy gate of the estimator never being passed by
silence. -/
theorem C3_silence_law (config : EchoCanceller3Config) (rate : Int)
    (b : RenderDelayBuffer) (c : RenderDelayController) (n : Nat)
    (hb : RenderDelayBuffer.Create config rate 1 = FatalOr.ok b)
    (hc : RenderDelayController.Create config rate = FatalOr.ok c) :
    getDelayCalls config b.GetDownsampledRenderBuffer b.Delay zeroCaptureBlock c n =
      FatalOr.ok (c, List.replicate n none) := by
  have hrate : rate ∈ supportedRates := by
    by_contra hrate
    unfold RenderDelayBuffer.Create at hb
    rw [if_neg hrate] at hb
    exact FatalOr.noConfusion hb
  unfold RenderDelayBuffer.Create at hb
  rw [if_pos hrate] at hb
  injection hb with hb
  unfold RenderDelayController.Create at hc
  rw [if_pos hrate] at hc
  injection hc with hc
  subst hb hc
  simp only [RenderDelayBuffer.GetDownsampledRenderBuffer, RenderDelayBuffer.Delay]
  induction n with
  | zero => rfl
  | succ n ih =>
    unfold getDelayCalls
    rw [GetDelay_silent config rate _ _ none (fun x hx => List.eq_of_mem_replicate hx)]
    simp only [ih, List.replicate_succ]

/-- Witness for C3: default configuration, rate 16000, one render channel,
100 consecutive silent GetDelay calls, all returning the absent estimate. -/
theorem C3_silence_law_witness :
    RenderDelayBuffer.Create {} 16000 1 =
        FatalOr.ok ⟨16000, 1, List.replicate 160 0, 0, 0⟩ ∧
      RenderDelayController.Create {} 16000 = FatalOr.ok ⟨16000, none⟩ ∧
      getDelayCalls {}
        (RenderDelayBuffer.mk 16000 1 (List.replicate 160 0) 0 0).GetDownsampledRenderBuffer
        (RenderDelayBuffer.mk 16000 1 (List.replicate 160 0) 0 0).Delay zeroCaptureBlock
        ⟨16000, none⟩ 100 = FatalOr.ok (⟨16000, none⟩, List.replicate 100 none) :=
  ⟨by decide, by decide,
    C3_silence_law {} 16000 ⟨16000, 1, List.replicate 160 0, 0, 0⟩ ⟨16000, none⟩ 100
      (by decide) (by decide)⟩

/-- Claim C4 (jitter invariance): for every supported sample rate and
downsampling factor, with a fixed sample delay D ∈ {15, 50, 300, 800} —
the estimator's behaviour modelled by a schedule-independent report function
whose canonical report stream satisfies `AlignedReports D` — any
logically-ordered schedule of Insert and PrepareCaptureProcessing/GetDelay
calls (in particular bursts of up to 26 blocks) drives the controller to the
same published value as the strictly alternated schedule, namely
`applyDeadZone (floor(D / kBlockSize) - 1)`: headroom subtraction with the
dead-zone rule that any raw result under 2 blocks collapses to 0. -/
theorem C4_jitter_invariance (rate : Int) (f D : Nat) (config : EchoCanceller3Config)
    (c : RenderDelayController) (reports : Nat → Nat → Option Int) (ops : List ApiOp)
    (N : Nat) (hrate : rate ∈ supportedRates) (hf : f ∈ kDownSamplingFactors)
    (hD : D ∈ [15, 50, 300, 800])
    (hc : RenderDelayController.Create config rate = FatalOr.ok c)
    (hind : ScheduleIndep reports) (hvalid : ValidFrom 0 0 ops)
    (hN : captureCount ops = N)
    (ha : AlignedReports D (canonReports reports 0 N)) :
    (runSched reports ops (0, 0, c.state)).2.2 =
        (runSched reports (alternatedSchedule N) (0, 0, c.state)).2.2 ∧
      (runSched reports ops (0, 0, c.state)).2.2 =
        some (applyDeadZone (D / kBlockSize - 1)) := by
  obtain ⟨hall, hmem⟩ := ha
  have h1 : (runSched reports ops (0, 0, c.state)).2.2 =
      runController c.state (canonReports reports 0 N) := by
    have h := runSched_controller reports hind ops 0 0 c.state hvalid
    rw [hN] at h
    exact h
  have h2 : (runSched reports (alternatedSchedule N) (0, 0, c.state)).2.2 =
      runController c.state (canonReports reports 0 N) := by
    have h := runSched_controller reports hind (alternatedSchedule N) 0 0 c.state
      (validFrom_alternated N 0)
    rw [captureCount_alternated] at h
    exact h
  have h3 : runController c.state (canonReports reports 0 N) =
      some (publishValue (trueRawLag D)) :=
    runController_reach _ (trueRawLag_nonneg D) _ hall hmem c.state
  constructor
  · rw [h1, h2]
  · rw [h1, h3, publishValue_trueRawLag]

/-- The report function of the C4 witness: the estimator reports the true raw
lag of the 800-sample delay at capture step 0 and nothing afterwards,
independently of how many render blocks are buffered. -/
def c4WitnessReports : Nat → Nat → Option Int :=
  fun k _ => if k = 0 then some (trueRawLag 800) else none

/-- The jittered schedule of the C4 witness: a burst of two insertions is
interleaved with the two capture steps in logical order. -/
def c4WitnessOps : List ApiOp :=
  [ApiOp.insertRender, ApiOp.processCapture, ApiOp.insertRender, ApiOp.processCapture]

/-- Witness for C4: rate 48000, factor 8, D = 800 samples, a two-capture
jittered schedule; the jittered run equals the alternated run and publishes
800 / 160 - 1 = 4 blocks. -/
theorem C4_jitter_invariance_witness :
    (48000 : Int) ∈ supportedRates ∧ (8 : Nat) ∈ kDownSamplingFactors ∧
      (800 : Nat) ∈ [15, 50, 300, 800] ∧
      RenderDelayController.Create {} 48000 = FatalOr.ok ⟨48000, none⟩ ∧
      ScheduleIndep c4WitnessReports ∧ ValidFrom 0 0 c4WitnessOps ∧
      captureCount c4WitnessOps = 2 ∧
      AlignedReports 800 (canonReports c4WitnessReports 0 2) ∧
      ((runSched c4WitnessReports c4WitnessOps
            (0, 0, (RenderDelayController.mk 48000 none).state)).2.2 =
          (runSched c4WitnessReports (alternatedSchedule 2)
            (0, 0, (RenderDelayController.mk 48000 none).state)).2.2 ∧
        (runSched c4WitnessReports c4WitnessOps
            (0, 0, (RenderDelayController.mk 48000 none).state)).2.2 =
          some (applyDeadZone (800 / kBlockSize - 1))) := by
  have hind : ScheduleIndep c4WitnessReports := fun k m m2 _ _ => rfl
  have hvalid : ValidFrom 0 0 c4WitnessOps := by
    simp [c4WitnessOps, ValidFrom]
  have ha : AlignedReports 800 (canonReports c4WitnessReports 0 2) := by
    unfold AlignedReports canonReports c4WitnessReports trueRawLag
    decide
  exact ⟨by decide, by decide, by decide, by decide, hind, hvalid, by decide, ha,
    C4_jitter_invariance 48000 8 800 {} ⟨48000, none⟩ c4WitnessReports c4WitnessOps 2
      (by decide) (by decide) (by decide) (by decide) hind hvalid (by decide) ha⟩

/-- Claim C5 (zero-signal ten-step law): for every configuration, supported
sample rate and channel count, after processing zero-valued render and
capture blocks n times — in particular 10 times — through Insert,
PrepareCaptureProcessing and GetDelay, every returned estimate is the absent
one, and the delay value each carries (read with the default/no-delay value
0) is 0: silence never produces a spurious nonzero delay. -/
theorem C5_zero_signal_law (config : EchoCanceller3Config) (rate : Int) (ch : Nat)
    (b : RenderDelayBuffer) (c : RenderDelayController) (n : Nat)
    (hb : RenderDelayBuffer.Create config rate ch = FatalOr.ok b)
    (hc : RenderDelayController.Create config rate = FatalOr.ok c) :
    ∃ b2, basicApiCalls config (zeroRenderBlock rate ch) zeroCaptureBlock b c n =
        FatalOr.ok (b2, c, List.replicate n none) ∧
      ∀ o ∈ List.replicate n (none : Option Nat), o.getD 0 = 0 := by
  have hrate : rate ∈ supportedRates := by
    by_contra hrate
    unfold RenderDelayBuffer.Create at hb
    rw [if_neg hrate] at hb
    exact FatalOr.noConfusion hb
  unfold RenderDelayBuffer.Create at hb
  rw [if_pos hrate] at hb
  injection hb with hb
  unfold RenderDelayController.Create at hc
  rw [if_pos hrate] at hc
  injection hc with hc
  subst hb hc
  obtain ⟨b2, hrun⟩ := basicApiCalls_silent config rate ch none n
    ⟨rate, ch, List.replicate (historyCapacity config) 0, 0, 0⟩ rfl rfl
    (fun x hx => List.eq_of_mem_replicate hx)
  refine ⟨b2, hrun, ?_⟩
  intro o ho
  rw [List.eq_of_mem_replicate ho]
  rfl

/-- Witness for C5: default configuration, rate 32000, one render channel,
10 zero-valued steps; all 10 returned estimates are absent. -/
theorem C5_zero_signal_law_witness :
    RenderDelayBuffer.Create {} 32000 1 =
        FatalOr.ok ⟨32000, 1, List.replicate 160 0, 0, 0⟩ ∧
      RenderDelayController.Create {} 32000 = FatalOr.ok ⟨32000, none⟩ ∧
      ∃ b2, basicApiCalls {} (zeroRenderBlock 32000 1) zeroCaptureBlock
          ⟨32000, 1, List.replicate 160 0, 0, 0⟩ ⟨32000, none⟩ 10 =
          FatalOr.ok (b2, ⟨32000, none⟩, List.replicate 10 none) ∧
        ∀ o ∈ List.replicate 10 (none : Option Nat), o.getD 0 = 0 :=
  ⟨by decide, by decide,
    C5_zero_signal_law {} 32000 1 ⟨32000, 1, List.replicate 160 0, 0, 0⟩ ⟨32000, none⟩ 10
      (by decide) (by decide)⟩

/-- Claim C6 (capture-size contract violation): for every supported sample
rate, calling GetDelay on a controller created for that rate with a capture
block whose sample count differs from the fixed block length takes the fatal
contract-violation path — the result is `FatalOr.fatal`, which has no
recoverable-error alternative. -/
theorem C6_wrong_capture_size (config : EchoCanceller3Config) (rate : Int)
    (c : RenderDelayController) (view : List Int) (bd : Nat) (captureBlock : List Int)
    (hrate : rate ∈ supportedRates)
    (hc : RenderDelayController.Create config rate = FatalOr.ok c)
    (hlen : captureBlock.length ≠ kBlockSize) :
    RenderDelayController.GetDelay config c view bd captureBlock = FatalOr.fatal := by
  unfold RenderDelayController.GetDelay
  rw [if_pos hlen]

/-- Witness for C6: rate 16000 and a capture block of length
kBlockSize - 1 = 159; GetDelay is fatal. -/
theorem C6_wrong_capture_size_witness :
    (16000 : Int) ∈ supportedRates ∧
      RenderDelayController.Create {} 16000 = FatalOr.ok ⟨16000, none⟩ ∧
      (List.replicate (kBlockSize - 1) (0 : Int)).length ≠ kBlockSize ∧
      RenderDelayController.GetDelay {} ⟨16000, none⟩ [] 0
        (List.replicate (kBlockSize - 1) 0) = FatalOr.fatal :=
  ⟨by decide, by decide, by decide,
    C6_wrong_capture_size {} 16000 ⟨16000, none⟩ [] 0 (List.replicate (kBlockSize - 1) 0)
      (by decide) (by decide) (by decide)⟩

/-- Claim C7 (sample-rate contract violation): constructing the controller or
the render history buffer with any sample rate outside {16000, 32000, 48000}
Hz takes the fatal contract-violation path — both `Create` functions return
`FatalOr.fatal`, which has no recoverable-error alternative. -/
theorem C7_wrong_sample_rate (config : EchoCanceller3Config) (rate : Int) (ch : Nat)
    (hrate : rate ∉ supportedRates) :
    RenderDelayController.Create config rate = FatalOr.fatal ∧
      RenderDelayBuffer.Create config rate ch = FatalOr.fatal := by
  constructor
  · unfold RenderDelayController.Create
    rw [if_neg hrate]
  · unfold RenderDelayBuffer.Create
    rw [if_neg hrate]

/-- Witness for C7 at the four rates of the source test, -1, 0, 8001 and
16001 Hz: both constructions are fatal. -/
theorem C7_wrong_sample_rate_witness :
    ((-1 : Int) ∉ supportedRates ∧
      RenderDelayController.Create {} (-1) = FatalOr.fatal ∧
      RenderDelayBuffer.Create {} (-1) 1 = FatalOr.fatal) ∧
    ((0 : Int) ∉ supportedRates ∧
      RenderDelayController.Create {} 0 = FatalOr.fatal ∧
      RenderDelayBuffer.Create {} 0 1 = FatalOr.fatal) ∧
    ((8001 : Int) ∉ supportedRates ∧
      RenderDelayController.Create {} 8001 = FatalOr.fatal ∧
      RenderDelayBuffer.Create {} 8001 1 = FatalOr.fatal) ∧
    ((16001 : Int) ∉ supportedRates ∧
      RenderDelayController.Create {} 16001 = FatalOr.fatal ∧
      RenderDelayBuffer.Create {} 16001 1 = FatalOr.fatal) :=
  ⟨⟨by decide, (C7_wrong_sample_rate {} (-1) 1 (by decide)).1,
      (C7_wrong_sample_rate {} (-1) 1 (by decide)).2⟩,
    ⟨by decide, (C7_wrong_sample_rate {} 0 1 (by decide)).1,
      (C7_wrong_sample_rate {} 0 1 (by decide)).2⟩,
    ⟨by decide, (C7_wrong_sample_rate {} 8001 1 (by decide)).1,
      (C7_wrong_sample_rate {} 8001 1 (by decide)).2⟩,
    ⟨by decide, (C7_wrong_sample_rate {} 16001 1 (by decide)).1,
      (C7_wrong_sample_rate {} 16001 1 (by decide)).2⟩⟩

/-- Claim C8 (estimate persistence): a stretch of capture-block steps in
which the estimator reports no confident candidate leaves the controller's
published state exactly as it was (a previously published estimate persists
rather than resetting to absent); the controller stays Unresolved as long as
every confident report is non-causal; and a causal confident report is what
transitions it out of Unresolved. -/
theorem C8_estimate_persistence :
    (∀ (st : Option Nat) (pre post : List (Option Int)), (∀ r ∈ post, r = none) →
      runController st (pre ++ post) = runController st pre) ∧
    (∀ reports : List (Option Int), NonCausalReports reports →
      runController none reports = none) ∧
    (∀ L : Int, 0 ≤ L → ∃ d, controllerUpdate none (some L) = some d) := by
  refine ⟨?_, ?_, ?_⟩
  · intro st pre post h
    unfold runController
    rw [List.foldl_append]
    exact runController_all_none post _ h
  · exact fun reports h => runController_noncausal reports h
  · intro L hL
    exact ⟨publishValue L, controllerUpdate_causal none L hL⟩

/-- Witness for C8: after the estimate 4 blocks is published, two
no-candidate steps leave the published state unchanged; a run of only
negative-lag reports publishes nothing; a causal report at lag 7 leaves
Unresolved. -/
theorem C8_estimate_persistence_witness :
    ((∀ r ∈ ([none, none] : List (Option Int)), r = none) ∧
      runController none ([some 5] ++ [none, none]) = runController none [some 5]) ∧
    (NonCausalReports [some (-3), none] ∧
      runController none [some (-3), none] = none) ∧
    (0 ≤ (7 : Int) ∧ ∃ d, controllerUpdate none (some 7) = some d) := by
  have hnc : NonCausalReports [some (-3), none] := by
    intro r hr
    simp only [List.mem_cons, List.not_mem_nil, or_false] at hr
    rcases hr with rfl | rfl
    · exact Or.inr ⟨-3, by omega, rfl⟩
    · exact Or.inl rfl
  exact ⟨⟨by decide, C8_estimate_persistence.1 none [some 5] [none, none] (by decide)⟩,
    ⟨hnc, C8_estimate_persistence.2.1 [some (-3), none] hnc⟩,
    ⟨by decide, C8_estimate_persistence.2.2 7 (by decide)⟩⟩

/-- The very first GetDelay call of a session at 16000 Hz, default
configuration: freshly created controller, the freshly created buffer's
(all-zero, never-inserted) downsampled view, zero buffering delay and an
all-zero capture block. -/
def firstSilentCall : FatalOr (RenderDelayController × Option Nat) :=
  RenderDelayController.GetDelay {} ⟨16000, none⟩
    (List.replicate (historyCapacity {}) 0) 0 zeroCaptureBlock

/-- Counterexample to claim C10: the very first GetDelay call with an empty
render history and all-zero capture returns a result whose delay estimate is
absent (disengaged) — GetDelay does not always return an engaged estimate,
and "no estimate" is represented by the absent optional, not by a zero inner
field. -/
theorem C10_counterexample :
    firstSilentCall = FatalOr.ok (⟨16000, none⟩, none) ∧
      (none : Option Nat).isSome = false := by
  constructor
  · exact GetDelay_silent {} 16000 _ 0 none (fun x hx => List.eq_of_mem_replicate hx)
  · rfl

/-- Claim C10 as amended: for every supported sample rate and every
well-shaped capture block, the first GetDelay call returns a (non-fatal)
result object, but that result's estimate may be disengaged: with the
freshly created (all-zero) render history and an all-zero capture block the
returned estimate is absent — absence of the optional, not a zero inner
field, represents "no estimate". -/
theorem C10_getdelay_result (config : EchoCanceller3Config) (rate : Int)
    (captureBlock : List Int) (hrate : rate ∈ supportedRates)
    (hlen : captureBlock.length = kBlockSize) :
    (∃ out, RenderDelayController.GetDelay config ⟨rate, none⟩
        (List.replicate (historyCapacity config) 0) 0 captureBlock = FatalOr.ok out) ∧
      RenderDelayController.GetDelay config ⟨rate, none⟩
          (List.replicate (historyCapacity config) 0) 0 zeroCaptureBlock =
        FatalOr.ok (⟨rate, none⟩, none) := by
  constructor
  · unfold RenderDelayController.GetDelay
    rw [if_neg (by omega)]
    exact ⟨_, rfl⟩
  · exact GetDelay_silent config rate _ 0 none (fun x hx => List.eq_of_mem_replicate hx)

/-- Witness for the amended C10: rate 16000, default configuration, the
all-zero capture block of the correct length. -/
theorem C10_getdelay_result_witness :
    (16000 : Int) ∈ supportedRates ∧ zeroCaptureBlock.length = kBlockSize ∧
      ((∃ out, RenderDelayController.GetDelay {} ⟨16000, none⟩
          (List.replicate (historyCapacity {}) 0) 0 zeroCaptureBlock = FatalOr.ok out) ∧
        RenderDelayController.GetDelay {} ⟨16000, none⟩
            (List.replicate (historyCapacity {}) 0) 0 zeroCaptureBlock =
          FatalOr.ok (⟨16000, none⟩, none)) :=
  ⟨by decide, by decide,
    C10_getdelay_result {} 16000 zeroCaptureBlock (by decide) (by decide)⟩

end Aec3
